import Mathlib

/- Shallow embedding of the map-tile caching reverse proxy implemented in
   src/main.py: key codec, local LRU tier, remote tier client, origin
   fetcher, request orchestration and metrics aggregation.

   Conventions: Python floats (timestamps, ratios) are modeled as exact
   rationals; byte strings are modeled as Lean strings (opaque payloads);
   each network round-trip (Redis pipeline, upstream HTTP call) is modeled
   by an oracle value describing its outcome, supplied per request. -/

namespace MapProxy

/-- UTF-8 encoding of one character as its byte values, mirroring the Python
    str.encode("utf-8") used by urllib when quoting. -/
def utf8Bytes (c : Char) : List Nat :=
  let n := c.toNat
  if n < 128 then [n]
  else if n < 2048 then [192 + n / 64, 128 + n % 64]
  else if n < 65536 then [224 + n / 4096, 128 + n / 64 % 64, 128 + n % 64]
  else [240 + n / 262144, 128 + n / 4096 % 64, 128 + n / 64 % 64, 128 + n % 64]

/-- Uppercase hexadecimal digit for percent-encoding. -/
def hexDigit (n : Nat) : Char :=
  if n < 10 then Char.ofNat (48 + n) else Char.ofNat (55 + n)

/-- Bytes the urllib quote_plus never encodes: ASCII letters, digits, and the
    characters underscore, dot, hyphen, tilde. -/
def isAlwaysSafe (b : Nat) : Bool :=
  (65 ≤ b && b ≤ 90) || (97 ≤ b && b ≤ 122) || (48 ≤ b && b ≤ 57) ||
    b == 95 || b == 46 || b == 45 || b == 126

/-- quote_plus on a single byte: safe bytes kept verbatim, a space becomes
    a plus sign, every other byte is percent-encoded in uppercase hex. -/
def quoteByte (b : Nat) : List Char :=
  if isAlwaysSafe b then [Char.ofNat b]
  else if b == 32 then ['+']
  else ['%', hexDigit (b / 16 % 16), hexDigit (b % 16)]

/-- urllib.parse.quote_plus over a whole string: each character is encoded
    to UTF-8 bytes and each byte quoted. -/
def quotePlus (s : String) : String :=
  String.mk (List.flatten ((List.flatten (s.data.map utf8Bytes)).map quoteByte))

/-- urllib.parse.urlencode over a list of (key, value) string pairs:
    quote_plus on both components, joined as key=value pairs with ampersands. -/
def urlencode (ps : List (String × String)) : String :=
  String.intercalate "&" (ps.map (fun p => quotePlus p.1 ++ "=" ++ quotePlus p.2))

/-- the Python ordering on (string, string) tuples, the comparison used by
    sorted(parametros.multi_items()): first components compared first, ties
    broken by the second component. -/
def paramLe (a b : String × String) : Prop :=
  a.1 < b.1 ∨ (a.1 = b.1 ∧ a.2 ≤ b.2)

instance : DecidableRel paramLe :=
  fun a b => inferInstanceAs (Decidable (a.1 < b.1 ∨ (a.1 = b.1 ∧ a.2 ≤ b.2)))

instance : IsTrans (String × String) paramLe := by
  constructor
  intro a b c hab hbc
  rcases hab with h1 | ⟨h1, h2⟩ <;> rcases hbc with h3 | ⟨h3, h4⟩
  · exact Or.inl (lt_trans h1 h3)
  · exact Or.inl (h3 ▸ h1)
  · exact Or.inl (h1 ▸ h3)
  · exact Or.inr ⟨h1.trans h3, le_trans h2 h4⟩

instance : IsTotal (String × String) paramLe := by
  constructor
  intro a b
  rcases lt_trichotomy a.1 b.1 with h | h | h
  · exact Or.inl (Or.inl h)
  · rcases le_total a.2 b.2 with h2 | h2
    · exact Or.inl (Or.inr ⟨h, h2⟩)
    · exact Or.inr (Or.inr ⟨h.symm, h2⟩)
  · exact Or.inr (Or.inl h)

instance : IsAntisymm (String × String) paramLe := by
  constructor
  intro a b hab hba
  rcases hab with h1 | ⟨h1, h2⟩ <;> rcases hba with h3 | ⟨h3, h4⟩
  · exact absurd (lt_trans h1 h3) (lt_irrefl a.1)
  · exact absurd h1 (h3 ▸ lt_irrefl b.1)
  · exact absurd h3 (h1 ▸ lt_irrefl a.1)
  · exact Prod.ext h1 (le_antisymm h2 h4)

/-- Embeds _gerar_chave_cache from src/main.py: the canonical cache key is
    the full upstream URL, a question mark, and the urlencoded parameter
    list sorted by Python tuple order. the Python stable sort over this
    antisymmetric total order is modeled by insertion sort, which returns
    the same list. -/
def gerarChaveCache (urlCompleta : String) (parametros : List (String × String)) : String :=
  urlCompleta ++ "?" ++ urlencode (List.insertionSort paramLe parametros)

/-- Truncation toward zero of a rational, mirroring the Python int() applied
    to a float. -/
def ratTrunc (q : ℚ) : ℤ :=
  if 0 ≤ q then Int.floor q else -Int.floor (-q)

/-- TileEntry stored in the local tier: the tuple (body, content_type,
    expires_at) held in the local_cache dict of src/main.py. -/
structure Entry where
  body : String
  contentType : String
  expiresAt : ℚ
  deriving DecidableEq, Repr

/-- Local cache state: the insertion-ordered dict from keys to entries,
    modeled as an association list whose tail end is the most recent. -/
abbrev LC := List (String × Entry)

/-- Python dict lookup local_cache.get(key). -/
def lcLookup (key : String) (st : LC) : Option Entry :=
  match st.find? (fun p => p.1 == key) with
  | some p => some p.2
  | none => none

/-- Python dict removal local_cache.pop(key, None): the binding for the key
    disappears, all other bindings keep their order. -/
def lcErase (key : String) (st : LC) : LC :=
  st.filter (fun p => !(p.1 == key))

/-- Python dict assignment local_cache[key] = item: an existing key keeps
    its position in insertion order and its value is replaced; a new key is
    appended at the tail. -/
def dictSet (key : String) (v : Entry) : LC → LC
  | [] => [(key, v)]
  | p :: rest => if p.1 == key then (key, v) :: rest else p :: dictSet key v rest

/-- Embeds _local_cache_get from src/main.py: a missing key is a miss; an
    entry with expires_at less than or equal to now is popped and reported
    as a miss; otherwise the entry is moved to the tail (most recently
    used) and returned. Returns the result together with the new state. -/
def localCacheGet (now : ℚ) (key : String) (st : LC) : Option Entry × LC :=
  match lcLookup key st with
  | none => (none, st)
  | some item =>
    if item.expiresAt ≤ now then
      (none, lcErase key st)
    else
      (some item, lcErase key st ++ [(key, item)])

/-- The while loop of _local_cache_set: while the map is over capacity,
    remove the entry at the head of insertion order (the oldest). -/
def evictLoop (cap : Nat) : LC → LC
  | [] => []
  | p :: rest => if rest.length + 1 > cap then evictLoop cap rest else p :: rest

/-- Embeds _local_cache_set from src/main.py: a non-positive TTL is a
    no-op; otherwise the entry is stored with expires_at = now + ttl and
    oldest entries are evicted until the size is within capacity. -/
def localCacheSet (cap : Nat) (now : ℚ) (key : String) (body contentType : String)
    (ttlSeconds : ℤ) (st : LC) : LC :=
  if ttlSeconds ≤ 0 then st
  else evictLoop cap (dictSet key ⟨body, contentType, now + (ttlSeconds : ℚ)⟩ st)

/-- Embeds _local_cache_evict from src/main.py: best-effort removal of a
    batch of keys. -/
def localCacheEvict (keys : List String) (st : LC) : LC :=
  keys.foldl (fun acc k => lcErase k acc) st

/-- One set call of the eviction-order experiment of the spec. -/
structure SetCall where
  key : String
  body : String
  contentType : String
  ttl : ℤ
  now : ℚ

/-- A sequence of local-tier set calls, applied in order. -/
def runSets (cap : Nat) (calls : List SetCall) (st : LC) : LC :=
  calls.foldl (fun acc c => localCacheSet cap c.now c.key c.body c.contentType c.ttl acc) st

/-- Metrics counters of src/main.py (class Metrics), all starting at zero. -/
structure Metrics where
  total_requests : ℕ
  cache_hits : ℕ
  local_cache_hits : ℕ
  redis_cache_hits : ℕ
  upstream_calls : ℕ
  upstream_errors : ℕ
  redis_errors : ℕ
  redis_tracking_active : ℕ
  deriving DecidableEq, Repr

/-- Embeds _atualizar_metricas from src/main.py: each access type bumps
    total_requests plus the counters of its kind; an unknown type is a
    no-op. -/
def atualizarMetricas (tipoAcesso : String) (m : Metrics) : Metrics :=
  if tipoAcesso = "local" then
    { m with total_requests := m.total_requests + 1, cache_hits := m.cache_hits + 1,
             local_cache_hits := m.local_cache_hits + 1 }
  else if tipoAcesso = "redis" then
    { m with total_requests := m.total_requests + 1, cache_hits := m.cache_hits + 1,
             redis_cache_hits := m.redis_cache_hits + 1 }
  else if tipoAcesso = "upstream" then
    { m with total_requests := m.total_requests + 1, upstream_calls := m.upstream_calls + 1 }
  else m

/-- the Python round-half-to-even of a rational to an integer. -/
def roundHalfEven (x : ℚ) : ℤ :=
  if x - (Int.floor x : ℚ) < 1 / 2 then Int.floor x
  else if 1 / 2 < x - (Int.floor x : ℚ) then Int.floor x + 1
  else if Int.floor x % 2 = 0 then Int.floor x else Int.floor x + 1

/-- the Python round(x, 6), on exact rationals. -/
def round6 (x : ℚ) : ℚ :=
  (roundHalfEven (x * 1000000) : ℚ) / 1000000

/-- The JSON snapshot produced by the /metrics endpoint of src/main.py:
    raw counters plus derived ratios rounded to six decimal places. -/
structure MetricsSnapshot where
  total_requests : ℕ
  cache_hits : ℕ
  local_cache_hits : ℕ
  redis_cache_hits : ℕ
  upstream_calls : ℕ
  upstream_errors : ℕ
  redis_errors : ℕ
  redis_tracking_active : ℕ
  cache_hit_ratio : ℚ
  local_cache_hit_ratio : ℚ
  redis_cache_hit_ratio : ℚ
  redis_error_rate : ℚ
  redis_tracking_status : String
  deriving DecidableEq, Repr

/-- Embeds metrics_json from src/main.py: every ratio is the quotient by
    total_requests when that is nonzero (0.0 otherwise), rounded by
    round(x, 6). -/
def metricsJson (m : Metrics) : MetricsSnapshot :=
  let total := m.total_requests
  let hitRatio : ℚ := if total ≠ 0 then (m.cache_hits : ℚ) / (total : ℚ) else 0
  let localHitRatio : ℚ := if total ≠ 0 then (m.local_cache_hits : ℚ) / (total : ℚ) else 0
  let redisHitRatio : ℚ := if total ≠ 0 then (m.redis_cache_hits : ℚ) / (total : ℚ) else 0
  let redisErrorRate : ℚ := if total ≠ 0 then (m.redis_errors : ℚ) / (total : ℚ) else 0
  { total_requests := m.total_requests
    cache_hits := m.cache_hits
    local_cache_hits := m.local_cache_hits
    redis_cache_hits := m.redis_cache_hits
    upstream_calls := m.upstream_calls
    upstream_errors := m.upstream_errors
    redis_errors := m.redis_errors
    redis_tracking_active := m.redis_tracking_active
    cache_hit_ratio := round6 hitRatio
    local_cache_hit_ratio := round6 localHitRatio
    redis_cache_hit_ratio := round6 redisHitRatio
    redis_error_rate := round6 redisErrorRate
    redis_tracking_status := if m.redis_tracking_active ≠ 0 then "active" else "inactive" }

/-- Embeds _calculate_cache_limit from src/main.py. Host-memory
    introspection is an Option which is none when psutil raises; a zero
    configured average size would raise ZeroDivisionError inside the try
    block and lands in the same except branch returning 5000. -/
def calculateCacheLimit (availableBytes : Option ℚ)
    (averageImageSizeKb maxMemoryPercent : ℕ) : ℤ :=
  match availableBytes with
  | none => 5000
  | some mem =>
    if averageImageSizeKb = 0 then 5000
    else
      let availableMemoryKb := mem / 1024
      let maxCacheMemoryKb := availableMemoryKb * ((maxMemoryPercent : ℚ) / 100)
      let maxEntries := ratTrunc (maxCacheMemoryKb / (averageImageSizeKb : ℚ))
      max 100 (min maxEntries 100000)

/-- Default upstream base URL of the configuration in src/main.py. -/
def HERE_MAPS_BASE_URL : String := "https://maps.hereapi.com/v3/base/mc/"

/-- Default Redis key namespace of the configuration (REDIS_KEY_PREFIX in
    src/main.py, value "tile_cache:"). -/
def REDIS_KEY_NAMESPACE : String := "tile_cache:"

/-- Default cache TTL of the configuration in src/main.py. -/
def CACHE_TTL_SECONDS : ℤ := 3600

/-- Embeds _normalizar_path_here: strips a leading "mc/" segment. -/
def normalizarPathHere (path : String) : String :=
  if path.startsWith "mc/" then path.drop 3 else path

/-- Embeds _gerar_chave_redis: the canonical key with the namespace in
    front. -/
def gerarChaveRedis (chaveCache : String) : String :=
  REDIS_KEY_NAMESPACE ++ chaveCache

/-- Value of a run of decimal digit characters. -/
def digitsToNat (cs : List Char) : ℕ :=
  cs.foldl (fun n c => n * 10 + (c.toNat - 48)) 0

/-- Search of the compiled regex max-age=(\d+): finds the first position
    where the literal is followed by at least one digit and returns the
    value of that digit run. -/
def findMaxAge : List Char → Option ℕ
  | [] => none
  | c :: rest =>
    if List.isPrefixOf "max-age=".data (c :: rest)
        && !(((c :: rest).drop 8).takeWhile Char.isDigit).isEmpty then
      some (digitsToNat (((c :: rest).drop 8).takeWhile Char.isDigit))
    else findMaxAge rest

/-- Embeds _computar_ttl_dos_cabecalhos: the max-age directive of the
    cache-control header when present and parsable, else the configured
    default TTL. A missing header reads as the empty string in the source
    and equally yields the default. -/
def computarTtlDosCabecalhos (cacheControl : Option String) : ℤ :=
  match cacheControl with
  | none => CACHE_TTL_SECONDS
  | some s =>
    match findMaxAge s.data with
    | some n => (n : ℤ)
    | none => CACHE_TTL_SECONDS

/-- Outcome of the batched Redis read round-trip of _verificar_cache_redis:
    the pipeline may raise, deliver a malformed reply, or deliver the two
    hmget fields (each possibly absent) plus the remaining TTL. -/
inductive RedisReadReply where
  | transportError
  | malformed
  | ok (corpo : Option String) (tipoConteudo : Option String) (ttlRestante : ℤ)
  deriving DecidableEq, Repr

/-- Embeds _verificar_cache_redis from src/main.py: a raised round-trip
    increments redis_errors and reads as a miss; a malformed reply, an
    absent body or a non-positive remaining TTL read as a miss without
    counting; otherwise the body, the decoded content type (image/png when
    the field is absent) and the remaining TTL clamped to at least 1 are
    returned. -/
def verificarCacheRedis (reply : RedisReadReply) (m : Metrics) :
    Option (String × String × ℤ) × Metrics :=
  match reply with
  | .transportError => (none, { m with redis_errors := m.redis_errors + 1 })
  | .malformed => (none, m)
  | .ok corpo tipoConteudo ttlRestante =>
    match corpo with
    | none => (none, m)
    | some corpoCache =>
      if 0 < ttlRestante then
        (some (corpoCache,
          (match tipoConteudo with
           | some s => s
           | none => "image/png"),
          max 1 ttlRestante), m)
      else (none, m)

/-- Outcome of the upstream HTTP GET of _buscar_dados_upstream: either a
    raised httpx error or a response carrying status code, body and the
    two relevant headers. -/
inductive UpstreamReply where
  | transportError
  | response (statusCode : ℕ) (content : String) (contentType : Option String)
      (cacheControl : Option String)
  deriving DecidableEq, Repr

/-- Embeds _buscar_dados_upstream from src/main.py: a transport error
    increments upstream_errors and fails; a 200 response yields body,
    content type (image/png default) and header-derived TTL; any other
    status fails, incrementing upstream_errors only when it is at least
    400. -/
def buscarDadosUpstream (reply : UpstreamReply) (m : Metrics) :
    Option (String × String × ℤ) × Metrics :=
  match reply with
  | .transportError => (none, { m with upstream_errors := m.upstream_errors + 1 })
  | .response status conteudo tipoConteudo cacheControl =>
    if status = 200 then
      (some (conteudo, tipoConteudo.getD "image/png", computarTtlDosCabecalhos cacheControl), m)
    else if 400 ≤ status then
      (none, { m with upstream_errors := m.upstream_errors + 1 })
    else (none, m)

/-- Embeds _salvar_no_cache_redis from src/main.py: a raised write
    round-trip is swallowed after incrementing redis_errors. -/
def salvarNoCacheRedis (writeOutcome : Except Unit Unit) (m : Metrics) : Metrics :=
  match writeOutcome with
  | .ok _ => m
  | .error _ => { m with redis_errors := m.redis_errors + 1 }

/-- Embeds _verificar_cache_local from src/main.py: a local get plus the
    recomputed remaining TTL, truncated and clamped to at least 1. -/
def verificarCacheLocal (nowGet nowRest : ℚ) (chaveRedis : String) (cache : LC) :
    Option (String × String × ℤ) × LC :=
  match localCacheGet nowGet chaveRedis cache with
  | (some item, cache2) =>
    (some (item.body, item.contentType, ratTrunc (max 1 (item.expiresAt - nowRest))), cache2)
  | (none, cache2) => (none, cache2)

/-- Per-request oracle: the wall-clock readings taken during the request
    and the outcomes of the three possible network round-trips. -/
structure RequestOracle where
  nowGetLocal : ℚ
  nowTempoRestante : ℚ
  nowSetAfterRedis : ℚ
  nowSetAfterUpstream : ℚ
  redisRead : RedisReadReply
  upstream : UpstreamReply
  redisWrite : Except Unit Unit

/-- Process state touched by a proxy request: local cache and metrics. -/
structure AppState where
  cache : LC
  metrics : Metrics

/-- HTTP response produced by the proxy endpoint. -/
structure RespModel where
  statusCode : ℕ
  content : String
  mediaType : String
  cacheControl : Option String
  xCache : String
  deriving DecidableEq, Repr

/-- Result of one proxy request: the response, the new process state,
    the query parameters transmitted upstream when a fetch was issued, and
    whether a Redis write round-trip was issued. -/
structure ProxyOutcome where
  resposta : RespModel
  state : AppState
  upstreamParams : Option (List (String × String))
  redisWriteIssued : Bool

/-- Embeds _criar_resposta_cache_hit from src/main.py. -/
def criarRespostaCacheHit (conteudo tipoMidia : String) (tempoRestante : ℤ)
    (tipoCache : String) : RespModel :=
  { statusCode := 200, content := conteudo, mediaType := tipoMidia,
    cacheControl := some ("public, max-age=" ++ toString tempoRestante),
    xCache := "HIT-" ++ tipoCache }

/-- Embeds _criar_resposta_cache_miss from src/main.py. -/
def criarRespostaCacheMiss (conteudo tipoMidia : String) (ttl : ℤ) : RespModel :=
  { statusCode := 200, content := conteudo, mediaType := tipoMidia,
    cacheControl := some ("public, max-age=" ++ toString ttl),
    xCache := "MISS" }

/-- Embeds _criar_resposta_erro_upstream from src/main.py; the status code
    defaults to 502 and the caller never overrides it. -/
def criarRespostaErroUpstream (erro : String) (statusCode : ℕ := 502) : RespModel :=
  { statusCode := statusCode,
    content := "\x7b\"error\":\"Erro ao acessar HERE API\",\"detail\":\"" ++ erro ++ "\"\x7d",
    mediaType := "application/json", cacheControl := none, xCache := "MISS" }

/-- Embeds the proxy endpoint of src/main.py: normalize the path, build
    the canonical and namespaced keys, then local tier, remote tier,
    upstream fetch with write-back, in that order, with the request full
    query-parameter list forwarded to the upstream call. -/
def proxy (cap : ℕ) (path : String) (queryParams : List (String × String))
    (o : RequestOracle) (st : AppState) : ProxyOutcome :=
  let pathNormalizado := normalizarPathHere path
  let urlHere := HERE_MAPS_BASE_URL ++ pathNormalizado
  let chaveCache := gerarChaveCache urlHere queryParams
  let chaveRedis := gerarChaveRedis chaveCache
  match verificarCacheLocal o.nowGetLocal o.nowTempoRestante chaveRedis st.cache with
  | (some r, cache2) =>
    { resposta := criarRespostaCacheHit r.1 r.2.1 r.2.2 "LOCAL"
      state := { cache := cache2, metrics := atualizarMetricas "local" st.metrics }
      upstreamParams := none
      redisWriteIssued := false }
  | (none, cache2) =>
    match verificarCacheRedis o.redisRead st.metrics with
    | (some r, m2) =>
      { resposta := criarRespostaCacheHit r.1 r.2.1 r.2.2 "REDIS"
        state := { cache := localCacheSet cap o.nowSetAfterRedis chaveRedis r.1 r.2.1 r.2.2 cache2,
                   metrics := atualizarMetricas "redis" m2 }
        upstreamParams := none
        redisWriteIssued := false }
    | (none, m2) =>
      match buscarDadosUpstream o.upstream m2 with
      | (none, m3) =>
        { resposta := criarRespostaErroUpstream "Erro na comunicação com HERE API"
          state := { cache := cache2, metrics := m3 }
          upstreamParams := some queryParams
          redisWriteIssued := false }
      | (some r, m3) =>
        { resposta := criarRespostaCacheMiss r.1 r.2.1 r.2.2
          state := { cache := localCacheSet cap o.nowSetAfterUpstream chaveRedis r.1 r.2.1 r.2.2 cache2,
                     metrics := salvarNoCacheRedis o.redisWrite (atualizarMetricas "upstream" m3) }
          upstreamParams := some queryParams
          redisWriteIssued := true }

/-- Metrics bookkeeping invariant: total_requests splits into the three
    serviced-outcome counters and cache_hits into the two hit counters. -/
def MetricsInv (m : Metrics) : Prop :=
  m.total_requests = m.local_cache_hits + m.redis_cache_hits + m.upstream_calls ∧
    m.cache_hits = m.local_cache_hits + m.redis_cache_hits

/-- Sorting is insensitive to the input ordering of the parameter multiset. -/
theorem insertionSort_paramLe_perm (p q : List (String × String)) (h : p.Perm q) :
    List.insertionSort paramLe p = List.insertionSort paramLe q :=
  List.eq_of_perm_of_sorted
    ((List.perm_insertionSort _ p).trans (h.trans (List.perm_insertionSort _ q).symm))
    (List.sorted_insertionSort _ p)
    (List.sorted_insertionSort _ q)

/-- C5: the key codec is order-independent: for any two query-parameter
    sequences that are permutations of the same multiset of (key, value)
    pairs, and any upstream URL, the canonical cache key is identical. -/
theorem gerarChaveCache_order_independent (url : String) (p q : List (String × String))
    (h : p.Perm q) : gerarChaveCache url p = gerarChaveCache url q := by
  unfold gerarChaveCache
  rw [insertionSort_paramLe_perm p q h]

/-- Witness for C5 at a concrete permutation of two parameters. -/
theorem gerarChaveCache_order_independent_witness :
    ([("b", "2"), ("a", "1")] : List (String × String)).Perm [("a", "1"), ("b", "2")] ∧
      gerarChaveCache "u" [("b", "2"), ("a", "1")] =
        gerarChaveCache "u" [("a", "1"), ("b", "2")] :=
  ⟨by decide, gerarChaveCache_order_independent "u" _ _ (by decide)⟩

/-- The eviction loop leaves at most cap entries. -/
theorem evictLoop_length_le (cap : Nat) (st : LC) : (evictLoop cap st).length ≤ cap := by
  induction st with
  | nil => simp [evictLoop]
  | cons p rest ih =>
    simp only [evictLoop]
    split
    · exact ih
    · simp only [List.length_cons]
      omega

/-- C3: after any call of the local-tier set operation with a positive TTL
    returns, the number of entries in the local cache is at most the
    configured capacity, for every prior cache state, key, body, content
    type and capacity. -/
theorem localCacheSet_length_le_cap (cap : Nat) (now : ℚ) (key body ct : String)
    (ttl : ℤ) (st : LC) (httl : 0 < ttl) :
    (localCacheSet cap now key body ct ttl st).length ≤ cap := by
  unfold localCacheSet
  rw [if_neg (by omega)]
  exact evictLoop_length_le cap _

/-- Witness for C3 at a concrete over-full prior state and capacity 1. -/
theorem localCacheSet_length_le_cap_witness :
    (0 : ℤ) < 7 ∧
      (localCacheSet 1 0 "k" "body" "image/png" 7
        [("a", ⟨"b1", "ct", 5⟩), ("c", ⟨"b2", "ct", 9⟩)]).length ≤ 1 :=
  ⟨by decide,
    localCacheSet_length_le_cap 1 0 "k" "body" "image/png" 7
      [("a", ⟨"b1", "ct", 5⟩), ("c", ⟨"b2", "ct", 9⟩)] (by decide)⟩

/-- Erasing a key removes every binding for it. -/
theorem lcErase_not_mem (key : String) (st : LC) :
    key ∉ (lcErase key st).map Prod.fst := by
  intro h
  rcases List.mem_map.1 h with ⟨p, hp, rfl⟩
  have := (List.mem_filter.1 hp).2
  simp at this

/-- Erasing a key makes subsequent lookups of it miss. -/
theorem lcLookup_erase (key : String) (st : LC) :
    lcLookup key (lcErase key st) = none := by
  unfold lcLookup
  have : (lcErase key st).find? (fun p => p.1 == key) = none := by
    rw [List.find?_eq_none]
    intro p hp
    have := (List.mem_filter.1 hp).2
    simpa using this
  rw [this]

/-- C8: a stored entry whose expiry is strictly in the past is reported
    absent by the local-tier get and physically removed from the map; in
    full generality, get never returns an entry whose expiry has passed. -/
theorem localCacheGet_expired (now : ℚ) (key : String) (st : LC) (e : Entry)
    (hl : lcLookup key st = some e) (hexp : e.expiresAt < now) :
    localCacheGet now key st = (none, lcErase key st) ∧
      key ∉ ((localCacheGet now key st).2.map Prod.fst) ∧
      lcLookup key (localCacheGet now key st).2 = none ∧
      (∀ (st2 : LC) (k2 : String) (e2 : Entry),
        (localCacheGet now k2 st2).1 = some e2 → now < e2.expiresAt) := by
  have hmain : localCacheGet now key st = (none, lcErase key st) := by
    unfold localCacheGet
    rw [hl]
    dsimp only
    rw [if_pos (le_of_lt hexp)]
  refine ⟨hmain, ?_, ?_, ?_⟩
  · rw [hmain]
    exact lcErase_not_mem key st
  · rw [hmain]
    exact lcLookup_erase key st
  · intro st2 k2 e2 h2
    unfold localCacheGet at h2
    cases hfind : lcLookup k2 st2 with
    | none => rw [hfind] at h2; simp at h2
    | some item =>
      rw [hfind] at h2
      dsimp only at h2
      by_cases hle : item.expiresAt ≤ now
      · rw [if_pos hle] at h2; simp at h2
      · rw [if_neg hle] at h2
        simp only at h2
        injection h2 with h3
        rw [← h3]
        exact not_le.1 hle

/-- Witness for C8 at a concrete expired entry. -/
theorem localCacheGet_expired_witness :
    lcLookup "k" ([("k", ⟨"b", "ct", 1⟩)] : LC) = some ⟨"b", "ct", 1⟩ ∧
      (1 : ℚ) < 2 ∧
      localCacheGet 2 "k" [("k", ⟨"b", "ct", 1⟩)] = (none, lcErase "k" [("k", ⟨"b", "ct", 1⟩)]) :=
  ⟨by decide, by norm_num,
    (localCacheGet_expired 2 "k" [("k", ⟨"b", "ct", 1⟩)] ⟨"b", "ct", 1⟩ (by decide)
      (by norm_num)).1⟩

/-- Dropping a suffix of a drop is a single drop, when the first drop stays
    inside the first list. -/
theorem drop_append_drop {α : Type} :
    ∀ (a : Nat) (l m : List α) (b : Nat), a ≤ l.length →
      (l.drop a ++ m).drop b = (l ++ m).drop (a + b)
  | 0, l, m, b, _ => by simp
  | a + 1, [], m, b, h => by simp at h
  | a + 1, x :: l, m, b, h => by
    have h2 : a ≤ l.length := by simpa using h
    simp only [List.drop_succ_cons, List.cons_append]
    rw [drop_append_drop a l m b h2]
    have : a + 1 + b = (a + b) + 1 := by omega
    rw [this, List.drop_succ_cons]

/-- The eviction loop drops exactly the oldest entries beyond capacity. -/
theorem evictLoop_eq_drop (cap : Nat) (st : LC) :
    evictLoop cap st = st.drop (st.length - cap) := by
  induction st with
  | nil => simp [evictLoop]
  | cons p rest ih =>
    simp only [evictLoop, List.length_cons]
    split
    · rw [ih]
      have : rest.length + 1 - cap = (rest.length - cap) + 1 := by omega
      rw [this, List.drop_succ_cons]
    · have : rest.length + 1 - cap = 0 := by omega
      rw [this, List.drop_zero]

/-- Dict assignment for a fresh key appends at the tail of insertion order. -/
theorem dictSet_fresh (key : String) (v : Entry) (st : LC)
    (h : key ∉ st.map Prod.fst) : dictSet key v st = st ++ [(key, v)] := by
  induction st with
  | nil => rfl
  | cons p rest ih =>
    simp only [List.map_cons, List.mem_cons] at h
    push_neg at h
    simp only [dictSet, List.cons_append]
    rw [if_neg (by simpa using Ne.symm h.1), ih h.2]

/-- Key inventory after a run of fresh, positive-TTL set calls: the oldest
    keys beyond capacity are dropped, the rest survive in order. -/
theorem runSets_keys (cap : Nat) :
    ∀ (calls : List SetCall) (st : LC),
      (st.map Prod.fst ++ calls.map SetCall.key).Nodup →
      (∀ c ∈ calls, 0 < c.ttl) →
      st.length ≤ cap →
      (runSets cap calls st).map Prod.fst =
        (st.map Prod.fst ++ calls.map SetCall.key).drop ((st.length + calls.length) - cap)
  | [], st, _, _, hlen => by
    simp only [runSets, List.foldl_nil, List.map_nil, List.append_nil, List.length_nil]
    have : st.length + 0 - cap = 0 := by omega
    rw [this, List.drop_zero]
  | c :: rest, st, hnodup, httl, hlen => by
    have hfresh : c.key ∉ st.map Prod.fst := by
      rcases List.nodup_append.1 hnodup with ⟨-, -, hdisj⟩
      intro hmem
      exact hdisj hmem (by simp)
    have httlc : 0 < c.ttl := httl c (by simp)
    set e : Entry := ⟨c.body, c.contentType, c.now + (c.ttl : ℚ)⟩ with he
    have hstep : localCacheSet cap c.now c.key c.body c.contentType c.ttl st =
        (st ++ [(c.key, e)]).drop ((st.length + 1) - cap) := by
      unfold localCacheSet
      rw [if_neg (by omega), dictSet_fresh c.key e st hfresh, evictLoop_eq_drop]
      simp
    have hrun : runSets cap (c :: rest) st =
        runSets cap rest ((st ++ [(c.key, e)]).drop ((st.length + 1) - cap)) := by
      simp only [runSets, List.foldl_cons]
      rw [hstep]
    set st1 : LC := (st ++ [(c.key, e)]).drop ((st.length + 1) - cap) with hst1
    have hst1keys : st1.map Prod.fst =
        (st.map Prod.fst ++ [c.key]).drop ((st.length + 1) - cap) := by
      rw [hst1, List.map_drop, List.map_append]
      simp
    have hst1len : st1.length = (st.length + 1) - ((st.length + 1) - cap) := by
      rw [hst1, List.length_drop]
      simp
    have hsub : List.Sublist (st1.map Prod.fst ++ rest.map SetCall.key)
        ((st.map Prod.fst ++ [c.key]) ++ rest.map SetCall.key) := by
      rw [hst1keys]
      exact List.Sublist.append_right (List.drop_sublist _ _) _
    have hassoc : (st.map Prod.fst ++ [c.key]) ++ rest.map SetCall.key =
        st.map Prod.fst ++ (c :: rest).map SetCall.key := by
      simp
    have hnodup1 : (st1.map Prod.fst ++ rest.map SetCall.key).Nodup :=
      (hassoc ▸ hnodup).sublist hsub
    have ih := runSets_keys cap rest st1 hnodup1 (fun d hd => httl d (by simp [hd]))
      (by rw [hst1len]; omega)
    rw [hrun, ih, hst1keys]
    rw [drop_append_drop _ _ _ _
      (by simp only [List.length_append, List.length_map, List.length_cons, List.length_nil]; omega)]
    rw [← hassoc] at hnodup ⊢
    congr 1
    rw [hst1len]
    simp only [List.length_cons]
    omega

/-- C4: with capacity N, starting empty, after N + 1 set calls with
    distinct keys and positive TTLs and no intervening gets, exactly the
    first-inserted key is absent and the other N keys are present. -/
theorem runSets_fifo_eviction (N : Nat) (c0 : SetCall) (rest : List SetCall)
    (hlen : (c0 :: rest).length = N + 1)
    (hnodup : ((c0 :: rest).map SetCall.key).Nodup)
    (httl : ∀ c ∈ c0 :: rest, 0 < c.ttl) :
    (runSets N (c0 :: rest) []).map Prod.fst = rest.map SetCall.key ∧
      c0.key ∉ (runSets N (c0 :: rest) []).map Prod.fst ∧
      ∀ c ∈ rest, c.key ∈ (runSets N (c0 :: rest) []).map Prod.fst := by
  have hkeys := runSets_keys N (c0 :: rest) [] (by simpa using hnodup) httl (by simp)
  simp only [List.map_nil, List.nil_append, List.length_nil, List.length_cons] at hkeys
  have hlen2 : rest.length + 1 = N + 1 := by simpa using hlen
  have hdrop : 0 + (rest.length + 1) - N = 1 := by omega
  rw [hdrop] at hkeys
  simp only [List.map_cons, List.drop_succ_cons, List.drop_zero] at hkeys
  refine ⟨hkeys, ?_, ?_⟩
  · rw [hkeys]
    simp only [List.map_cons, List.nodup_cons] at hnodup
    exact hnodup.1
  · intro c hc
    rw [hkeys]
    exact List.mem_map.2 ⟨c, hc, rfl⟩

/-- Witness for C4 with capacity 1 and two distinct keys. -/
theorem runSets_fifo_eviction_witness :
    ((⟨"k1", "b1", "ct", 5, 0⟩ : SetCall) :: [(⟨"k2", "b2", "ct", 5, 0⟩ : SetCall)]).length = 1 + 1 ∧
      "k1" ∉ (runSets 1 [⟨"k1", "b1", "ct", 5, 0⟩, ⟨"k2", "b2", "ct", 5, 0⟩] []).map Prod.fst ∧
      "k2" ∈ (runSets 1 [⟨"k1", "b1", "ct", 5, 0⟩, ⟨"k2", "b2", "ct", 5, 0⟩] []).map Prod.fst :=
  ⟨rfl,
    (runSets_fifo_eviction 1 ⟨"k1", "b1", "ct", 5, 0⟩ [⟨"k2", "b2", "ct", 5, 0⟩] rfl
      (by decide) (by decide)).2.1,
    (runSets_fifo_eviction 1 ⟨"k1", "b1", "ct", 5, 0⟩ [⟨"k2", "b2", "ct", 5, 0⟩] rfl
      (by decide) (by decide)).2.2 ⟨"k2", "b2", "ct", 5, 0⟩ (by simp)⟩

/-- Round-half-even lands within half a unit of its argument. -/
theorem abs_roundHalfEven_sub (x : ℚ) : |(roundHalfEven x : ℚ) - x| ≤ 1 / 2 := by
  unfold roundHalfEven
  have h0 : (0 : ℚ) ≤ x - (Int.floor x : ℚ) := by
    have := Int.floor_le x
    linarith
  have h1 : x - (Int.floor x : ℚ) < 1 := by
    have := Int.lt_floor_add_one x
    linarith
  split_ifs with ha hb hc <;> rw [abs_le] <;> constructor <;> push_cast <;> linarith

/-- Rounding to six decimals lands within half of the sixth decimal. -/
theorem abs_round6_sub (x : ℚ) : |round6 x - x| ≤ 1 / 2000000 := by
  unfold round6
  have h := abs_roundHalfEven_sub (x * 1000000)
  have h2 : (roundHalfEven (x * 1000000) : ℚ) / 1000000 - x =
      ((roundHalfEven (x * 1000000) : ℚ) - x * 1000000) / 1000000 := by
    ring
  rw [h2, abs_div, abs_of_pos (show (0 : ℚ) < 1000000 by norm_num)]
  linarith

/-- Counterexample to C9 at the spec own scenario: after 3 local hits, 2
    remote hits and 1 upstream call out of 6 total requests, the reported
    cache_hit_ratio is 0.833333, not 5/6, because metrics_json rounds every
    ratio to six decimal places. -/
theorem metricsJson_scenario_counterexample :
    (metricsJson ⟨6, 5, 3, 2, 1, 0, 0, 0⟩).cache_hit_ratio = 833333 / 1000000 ∧
      (metricsJson ⟨6, 5, 3, 2, 1, 0, 0, 0⟩).local_cache_hit_ratio = 1 / 2 ∧
      (metricsJson ⟨6, 5, 3, 2, 1, 0, 0, 0⟩).cache_hit_ratio ≠ 5 / 6 := by
  norm_num [metricsJson, round6, roundHalfEven]

/-- C9 (amended): the metrics snapshot reports every derived ratio as the
    corresponding quotient by total_requests rounded to six decimal places
    (hence within half of the sixth decimal of the exact quotient), and
    exactly 0 whenever total_requests is zero. -/
theorem metricsJson_ratio_spec (m : Metrics) :
    (m.total_requests = 0 →
      (metricsJson m).cache_hit_ratio = 0 ∧
        (metricsJson m).local_cache_hit_ratio = 0 ∧
        (metricsJson m).redis_cache_hit_ratio = 0 ∧
        (metricsJson m).redis_error_rate = 0) ∧
    (m.total_requests ≠ 0 →
      (metricsJson m).cache_hit_ratio =
          round6 ((m.cache_hits : ℚ) / (m.total_requests : ℚ)) ∧
        |(metricsJson m).cache_hit_ratio - (m.cache_hits : ℚ) / (m.total_requests : ℚ)| ≤ 1 / 2000000 ∧
        |(metricsJson m).local_cache_hit_ratio - (m.local_cache_hits : ℚ) / (m.total_requests : ℚ)| ≤ 1 / 2000000 ∧
        |(metricsJson m).redis_cache_hit_ratio - (m.redis_cache_hits : ℚ) / (m.total_requests : ℚ)| ≤ 1 / 2000000 ∧
        |(metricsJson m).redis_error_rate - (m.redis_errors : ℚ) / (m.total_requests : ℚ)| ≤ 1 / 2000000) := by
  constructor
  · intro h
    refine ⟨?_, ?_, ?_, ?_⟩ <;> · simp only [metricsJson, h]
                                  norm_num [round6, roundHalfEven]
  · intro h
    have e1 : (metricsJson m).cache_hit_ratio =
        round6 ((m.cache_hits : ℚ) / (m.total_requests : ℚ)) := by
      simp [metricsJson, h]
    have e2 : (metricsJson m).local_cache_hit_ratio =
        round6 ((m.local_cache_hits : ℚ) / (m.total_requests : ℚ)) := by
      simp [metricsJson, h]
    have e3 : (metricsJson m).redis_cache_hit_ratio =
        round6 ((m.redis_cache_hits : ℚ) / (m.total_requests : ℚ)) := by
      simp [metricsJson, h]
    have e4 : (metricsJson m).redis_error_rate =
        round6 ((m.redis_errors : ℚ) / (m.total_requests : ℚ)) := by
      simp [metricsJson, h]
    refine ⟨e1, ?_, ?_, ?_, ?_⟩
    · rw [e1]; exact abs_round6_sub _
    · rw [e2]; exact abs_round6_sub _
    · rw [e3]; exact abs_round6_sub _
    · rw [e4]; exact abs_round6_sub _

/-- Witness for C9 at the scenario counters (nonzero branch). -/
theorem metricsJson_ratio_spec_witness :
    ((6 : ℕ) ≠ 0) ∧
      |(metricsJson ⟨6, 5, 3, 2, 1, 0, 0, 0⟩).cache_hit_ratio - (5 : ℚ) / 6| ≤ 1 / 2000000 :=
  ⟨by decide, by
    have h := ((metricsJson_ratio_spec ⟨6, 5, 3, 2, 1, 0, 0, 0⟩).2 (by decide)).2.1
    simpa using h⟩

/-- Truncating division result used by _calculate_cache_limit, with the
    positivity facts needed to identify it with a floor. -/
theorem ratTrunc_eq_floor (q : ℚ) (h : 0 ≤ q) : ratTrunc q = Int.floor q := by
  unfold ratTrunc
  rw [if_pos h]

/-- C6: on successful introspection the startup capacity equals
    min(100000, max(100, floor((percent/100 × available KB) / average KB)))
    and always lies in [100, 100000]; on introspection failure it is
    exactly 5000. -/
theorem calculateCacheLimit_spec (mem : ℚ) (avg percent : ℕ)
    (hmem : 0 ≤ mem) (havg : 0 < avg) :
    calculateCacheLimit (some mem) avg percent =
        min 100000 (max 100 (Int.floor ((((percent : ℚ) / 100) * (mem / 1024)) / (avg : ℚ)))) ∧
      100 ≤ calculateCacheLimit (some mem) avg percent ∧
      calculateCacheLimit (some mem) avg percent ≤ 100000 ∧
      calculateCacheLimit none avg percent = 5000 := by
  have havg2 : avg ≠ 0 := Nat.pos_iff_ne_zero.1 havg
  have hq : (0 : ℚ) ≤ (mem / 1024 * ((percent : ℚ) / 100)) / (avg : ℚ) := by
    apply div_nonneg
    · apply mul_nonneg
      · exact div_nonneg hmem (by norm_num)
      · exact div_nonneg (Nat.cast_nonneg _) (by norm_num)
    · exact Nat.cast_nonneg _
  have hmain : calculateCacheLimit (some mem) avg percent =
      max 100 (min (Int.floor ((mem / 1024 * ((percent : ℚ) / 100)) / (avg : ℚ))) 100000) := by
    simp only [calculateCacheLimit, if_neg havg2]
    rw [ratTrunc_eq_floor _ hq]
  refine ⟨?_, ?_, ?_, rfl⟩
  · rw [hmain]
    rw [show (mem / 1024 * ((percent : ℚ) / 100)) / (avg : ℚ) =
        (((percent : ℚ) / 100) * (mem / 1024)) / (avg : ℚ) by ring]
    rw [max_min_distrib_left]
    rw [show max (100 : ℤ) 100000 = 100000 by norm_num]
    rw [min_comm]
  · rw [hmain]
    exact le_max_left _ _
  · rw [hmain]
    exact max_le (by norm_num) (min_le_right _ _)

/-- Witness for C6 at 8 GB of available memory, the default 400 KB average
    size and 20 percent budget. -/
theorem calculateCacheLimit_spec_witness :
    (0 : ℚ) ≤ 8589934592 ∧ (0 < 400) ∧
      calculateCacheLimit (some 8589934592) 400 20 =
        min 100000 (max 100 (Int.floor ((((20 : ℚ) / 100) * ((8589934592 : ℚ) / 1024)) / (400 : ℚ)))) :=
  ⟨by norm_num, by norm_num,
    (calculateCacheLimit_spec 8589934592 400 20 (by norm_num) (by norm_num)).1⟩

/-- A local-tier miss leaves the cache untouched in _verificar_cache_local. -/
theorem verificarCacheLocal_none (a b : ℚ) (k : String) (cache : LC)
    (h : lcLookup k cache = none) :
    verificarCacheLocal a b k cache = (none, cache) := by
  unfold verificarCacheLocal localCacheGet
  rw [h]

/-- The Redis read either leaves the metrics alone or only bumps
    redis_errors. -/
theorem verificarCacheRedis_snd (reply : RedisReadReply) (m : Metrics) :
    (verificarCacheRedis reply m).2 = m ∨
      (verificarCacheRedis reply m).2 = { m with redis_errors := m.redis_errors + 1 } := by
  unfold verificarCacheRedis
  cases reply with
  | transportError => exact Or.inr rfl
  | malformed => exact Or.inl rfl
  | ok corpo tipoConteudo ttl =>
    cases corpo with
    | none => exact Or.inl rfl
    | some corpoCache =>
      dsimp only
      split_ifs <;> exact Or.inl rfl

/-- The upstream fetch either leaves the metrics alone or only bumps
    upstream_errors. -/
theorem buscarDadosUpstream_snd (reply : UpstreamReply) (m : Metrics) :
    (buscarDadosUpstream reply m).2 = m ∨
      (buscarDadosUpstream reply m).2 = { m with upstream_errors := m.upstream_errors + 1 } := by
  unfold buscarDadosUpstream
  cases reply with
  | transportError => exact Or.inr rfl
  | response s c ct cc =>
    dsimp only
    split_ifs <;> first | exact Or.inl rfl | exact Or.inr rfl

/-- The Redis write either leaves the metrics alone or only bumps
    redis_errors. -/
theorem salvarNoCacheRedis_snd (w : Except Unit Unit) (m : Metrics) :
    salvarNoCacheRedis w m = m ∨
      salvarNoCacheRedis w m = { m with redis_errors := m.redis_errors + 1 } := by
  cases w with
  | ok u => exact Or.inl rfl
  | error e => exact Or.inr rfl

/-- Bumping redis_errors preserves the bookkeeping invariant. -/
theorem MetricsInv_redis_bump (m : Metrics) (h : MetricsInv m) :
    MetricsInv { m with redis_errors := m.redis_errors + 1 } := by
  simpa [MetricsInv] using h

/-- Bumping upstream_errors preserves the bookkeeping invariant. -/
theorem MetricsInv_upstream_bump (m : Metrics) (h : MetricsInv m) :
    MetricsInv { m with upstream_errors := m.upstream_errors + 1 } := by
  simpa [MetricsInv] using h

/-- Every branch of _atualizar_metricas preserves the bookkeeping
    invariant. -/
theorem atualizarMetricas_inv (t : String) (m : Metrics) (h : MetricsInv m) :
    MetricsInv (atualizarMetricas t m) := by
  unfold atualizarMetricas
  rcases h with ⟨h1, h2⟩
  split_ifs <;> constructor <;>
    first
    | exact h1
    | exact h2
    | (simp; omega)

/-- C1 (amended): when the origin fetch completes with any non-2xx status
    after both cache tiers missed, the proxy answers 502 regardless of the
    origin status; upstream_errors is incremented exactly when the status
    is at least 400, and nothing is written to either cache tier. -/
theorem proxy_upstream_non2xx_502 (cap : ℕ) (path : String)
    (params : List (String × String)) (o : RequestOracle) (st : AppState)
    (s : ℕ) (body : String) (ct cc : Option String)
    (hlocal : lcLookup (gerarChaveRedis (gerarChaveCache
      (HERE_MAPS_BASE_URL ++ normalizarPathHere path) params)) st.cache = none)
    (hredis : (verificarCacheRedis o.redisRead st.metrics).1 = none)
    (hup : o.upstream = .response s body ct cc)
    (hs : s / 100 ≠ 2) :
    (proxy cap path params o st).resposta.statusCode = 502 ∧
      (proxy cap path params o st).state.cache = st.cache ∧
      (proxy cap path params o st).redisWriteIssued = false ∧
      (proxy cap path params o st).state.metrics.upstream_errors =
        st.metrics.upstream_errors + (if 400 ≤ s then 1 else 0) := by
  have hs200 : s ≠ 200 := by omega
  have hloc : verificarCacheLocal o.nowGetLocal o.nowTempoRestante
      (gerarChaveRedis (gerarChaveCache
        (HERE_MAPS_BASE_URL ++ normalizarPathHere path) params)) st.cache =
      (none, st.cache) := verificarCacheLocal_none _ _ _ _ hlocal
  rcases hv : verificarCacheRedis o.redisRead st.metrics with ⟨res, m2⟩
  rw [hv] at hredis
  dsimp only at hredis
  subst hredis
  have hm2 : m2.upstream_errors = st.metrics.upstream_errors := by
    rcases verificarCacheRedis_snd o.redisRead st.metrics with h | h <;>
      rw [hv] at h <;> dsimp only at h <;> rw [h]
  simp only [proxy, hloc, hv, hup, buscarDadosUpstream, if_neg hs200]
  split_ifs with h4 <;>
    simp [criarRespostaErroUpstream, hm2]

/-- Counterexample to C1 as stated: with both tiers missing and the origin
    answering HTTP 503, the proxy responds 502, not the origin own 503. -/
theorem proxy_origin_503_yields_502 :
    (proxy 100 "tile/1/2/3" []
        ⟨0, 0, 0, 0, .ok none none 0, .response 503 "unavailable" none none, .ok ()⟩
        ⟨[], ⟨0, 0, 0, 0, 0, 0, 0, 0⟩⟩).resposta.statusCode = 502 ∧
      (proxy 100 "tile/1/2/3" []
        ⟨0, 0, 0, 0, .ok none none 0, .response 503 "unavailable" none none, .ok ()⟩
        ⟨[], ⟨0, 0, 0, 0, 0, 0, 0, 0⟩⟩).resposta.statusCode ≠ 503 := by
  constructor
  · rfl
  · decide

/-- Witness for C1 (amended) at origin status 503. -/
theorem proxy_upstream_non2xx_502_witness :
    lcLookup (gerarChaveRedis (gerarChaveCache
        (HERE_MAPS_BASE_URL ++ normalizarPathHere "tile/1/2/3") [])) ([] : LC) = none ∧
      (proxy 100 "tile/1/2/3" []
        ⟨0, 0, 0, 0, .ok none none 0, .response 503 "unavailable" none none, .ok ()⟩
        ⟨[], ⟨0, 0, 0, 0, 0, 0, 0, 0⟩⟩).resposta.statusCode = 502 ∧
      (proxy 100 "tile/1/2/3" []
        ⟨0, 0, 0, 0, .ok none none 0, .response 503 "unavailable" none none, .ok ()⟩
        ⟨[], ⟨0, 0, 0, 0, 0, 0, 0, 0⟩⟩).state.metrics.upstream_errors = 0 + (if 400 ≤ 503 then 1 else 0) :=
  ⟨rfl,
    (proxy_upstream_non2xx_502 100 "tile/1/2/3" []
      ⟨0, 0, 0, 0, .ok none none 0, .response 503 "unavailable" none none, .ok ()⟩
      ⟨[], ⟨0, 0, 0, 0, 0, 0, 0, 0⟩⟩ 503 "unavailable" none none rfl rfl rfl (by decide)).1,
    (proxy_upstream_non2xx_502 100 "tile/1/2/3" []
      ⟨0, 0, 0, 0, .ok none none 0, .response 503 "unavailable" none none, .ok ()⟩
      ⟨[], ⟨0, 0, 0, 0, 0, 0, 0, 0⟩⟩ 503 "unavailable" none none rfl rfl rfl (by decide)).2.2.2⟩

/-- Counterexample to C2 as stated: the caller-supplied tag parameter is
    neither removed from the canonical cache key nor withheld from the
    upstream call; no reserved parameter name exists in the code. -/
theorem reserved_param_not_removed :
    gerarChaveCache "u" [("tag", "1")] = "u?tag=1" ∧
      (proxy 100 "t" [("tag", "1")]
          ⟨0, 0, 0, 0, .ok none none 0, .response 200 "img" none none, .ok ()⟩
          ⟨[], ⟨0, 0, 0, 0, 0, 0, 0, 0⟩⟩).upstreamParams = some [("tag", "1")] := by
  constructor
  · decide
  · rfl

/-- C2 (amended): no query parameter is removed anywhere on the request
    path: the canonical key is built from the full parameter multiset (the
    sorted list is a permutation of the input) and, when both tiers miss,
    the upstream call receives the full original parameter list. -/
theorem proxy_forwards_all_params (cap : ℕ) (path : String)
    (params : List (String × String)) (o : RequestOracle) (st : AppState)
    (hlocal : lcLookup (gerarChaveRedis (gerarChaveCache
      (HERE_MAPS_BASE_URL ++ normalizarPathHere path) params)) st.cache = none)
    (hredis : (verificarCacheRedis o.redisRead st.metrics).1 = none) :
    (List.insertionSort paramLe params).Perm params ∧
      (proxy cap path params o st).upstreamParams = some params := by
  refine ⟨List.perm_insertionSort _ _, ?_⟩
  have hloc : verificarCacheLocal o.nowGetLocal o.nowTempoRestante
      (gerarChaveRedis (gerarChaveCache
        (HERE_MAPS_BASE_URL ++ normalizarPathHere path) params)) st.cache =
      (none, st.cache) := verificarCacheLocal_none _ _ _ _ hlocal
  rcases hv : verificarCacheRedis o.redisRead st.metrics with ⟨res, m2⟩
  rw [hv] at hredis
  dsimp only at hredis
  subst hredis
  simp only [proxy, hloc, hv]
  rcases hb : buscarDadosUpstream o.upstream m2 with ⟨rb, m3⟩
  cases rb <;> simp [hb]

/-- Witness for C2 (amended) at a concrete tagged request. -/
theorem proxy_forwards_all_params_witness :
    lcLookup (gerarChaveRedis (gerarChaveCache
        (HERE_MAPS_BASE_URL ++ normalizarPathHere "t") [("tag", "1")])) ([] : LC) = none ∧
      (proxy 100 "t" [("tag", "1")]
        ⟨0, 0, 0, 0, .ok none none 0, .response 200 "img" none none, .ok ()⟩
        ⟨[], ⟨0, 0, 0, 0, 0, 0, 0, 0⟩⟩).upstreamParams = some [("tag", "1")] :=
  ⟨rfl,
    (proxy_forwards_all_params 100 "t" [("tag", "1")]
      ⟨0, 0, 0, 0, .ok none none 0, .response 200 "img" none none, .ok ()⟩
      ⟨[], ⟨0, 0, 0, 0, 0, 0, 0, 0⟩⟩ rfl rfl).2⟩

/-- C7: a transport failure on a remote-tier round-trip increments
    redis_errors exactly once and never fails the request: a failed read
    counts once and reads as a miss, a failed write counts once and is
    swallowed, and a request hitting both failures is still answered 200
    with the freshly fetched upstream content. -/
theorem redis_failure_never_fails_request :
    (∀ m : Metrics, verificarCacheRedis .transportError m =
        (none, { m with redis_errors := m.redis_errors + 1 })) ∧
      (∀ m : Metrics, salvarNoCacheRedis (Except.error ()) m =
        { m with redis_errors := m.redis_errors + 1 }) ∧
      ∀ (cap : ℕ) (path : String) (params : List (String × String))
        (o : RequestOracle) (st : AppState) (body : String) (ct cc : Option String),
        lcLookup (gerarChaveRedis (gerarChaveCache
          (HERE_MAPS_BASE_URL ++ normalizarPathHere path) params)) st.cache = none →
        o.redisRead = .transportError →
        o.upstream = .response 200 body ct cc →
        o.redisWrite = .error () →
        (proxy cap path params o st).resposta.statusCode = 200 ∧
          (proxy cap path params o st).resposta.content = body ∧
          (proxy cap path params o st).state.metrics.redis_errors =
            st.metrics.redis_errors + 2 := by
  refine ⟨fun m => rfl, fun m => rfl, ?_⟩
  intro cap path params o st body ct cc hlocal hread hup hwrite
  have hloc : verificarCacheLocal o.nowGetLocal o.nowTempoRestante
      (gerarChaveRedis (gerarChaveCache
        (HERE_MAPS_BASE_URL ++ normalizarPathHere path) params)) st.cache =
      (none, st.cache) := verificarCacheLocal_none _ _ _ _ hlocal
  simp only [proxy, hloc, hread, hup, hwrite, verificarCacheRedis,
    buscarDadosUpstream, salvarNoCacheRedis, if_pos rfl]
  simp [criarRespostaCacheMiss, atualizarMetricas]

/-- Witness for C7 at a concrete request with both round-trips failing. -/
theorem redis_failure_never_fails_request_witness :
    lcLookup (gerarChaveRedis (gerarChaveCache
        (HERE_MAPS_BASE_URL ++ normalizarPathHere "t") [])) ([] : LC) = none ∧
      (proxy 100 "t" []
        ⟨0, 0, 0, 0, .transportError, .response 200 "img" none none, .error ()⟩
        ⟨[], ⟨0, 0, 0, 0, 0, 0, 0, 0⟩⟩).resposta.statusCode = 200 ∧
      (proxy 100 "t" []
        ⟨0, 0, 0, 0, .transportError, .response 200 "img" none none, .error ()⟩
        ⟨[], ⟨0, 0, 0, 0, 0, 0, 0, 0⟩⟩).resposta.content = "img" ∧
      (proxy 100 "t" []
        ⟨0, 0, 0, 0, .transportError, .response 200 "img" none none, .error ()⟩
        ⟨[], ⟨0, 0, 0, 0, 0, 0, 0, 0⟩⟩).state.metrics.redis_errors = 2 :=
  ⟨rfl,
    (redis_failure_never_fails_request.2.2 100 "t" []
      ⟨0, 0, 0, 0, .transportError, .response 200 "img" none none, .error ()⟩
      ⟨[], ⟨0, 0, 0, 0, 0, 0, 0, 0⟩⟩ "img" none none rfl rfl rfl rfl).1,
    (redis_failure_never_fails_request.2.2 100 "t" []
      ⟨0, 0, 0, 0, .transportError, .response 200 "img" none none, .error ()⟩
      ⟨[], ⟨0, 0, 0, 0, 0, 0, 0, 0⟩⟩ "img" none none rfl rfl rfl rfl).2.1,
    (redis_failure_never_fails_request.2.2 100 "t" []
      ⟨0, 0, 0, 0, .transportError, .response 200 "img" none none, .error ()⟩
      ⟨[], ⟨0, 0, 0, 0, 0, 0, 0, 0⟩⟩ "img" none none rfl rfl rfl rfl).2.2⟩

/-- Counterexample to C10 as stated: an origin redirect status 301 ends the
    request in upstream failure (status 502) yet upstream_errors stays 0,
    because only transport errors and statuses of at least 400 are counted. -/
theorem upstream_failure_without_error_count :
    (proxy 100 "t" []
        ⟨0, 0, 0, 0, .ok none none 0, .response 301 "moved" none none, .ok ()⟩
        ⟨[], ⟨0, 0, 0, 0, 0, 0, 0, 0⟩⟩).resposta.statusCode = 502 ∧
      (proxy 100 "t" []
        ⟨0, 0, 0, 0, .ok none none 0, .response 301 "moved" none none, .ok ()⟩
        ⟨[], ⟨0, 0, 0, 0, 0, 0, 0, 0⟩⟩).state.metrics.upstream_errors = 0 ∧
      (proxy 100 "t" []
        ⟨0, 0, 0, 0, .ok none none 0, .response 301 "moved" none none, .ok ()⟩
        ⟨[], ⟨0, 0, 0, 0, 0, 0, 0, 0⟩⟩).state.metrics.total_requests = 0 := by
  refine ⟨rfl, rfl, rfl⟩

/-- C10 (amended): every completed proxy request preserves the metrics
    invariant total_requests = local + redis + upstream and cache_hits =
    local + redis; a request ending in upstream failure (502 response)
    leaves total_requests unchanged and increments upstream_errors exactly
    when the failure was transport-level or carried an origin status of at
    least 400. -/
theorem proxy_metrics_invariant (cap : ℕ) (path : String)
    (params : List (String × String)) (o : RequestOracle) (st : AppState)
    (hInv : MetricsInv st.metrics) :
    MetricsInv (proxy cap path params o st).state.metrics ∧
      ((proxy cap path params o st).resposta.statusCode = 502 →
        (proxy cap path params o st).state.metrics.total_requests =
            st.metrics.total_requests ∧
          (o.upstream = .transportError →
            (proxy cap path params o st).state.metrics.upstream_errors =
              st.metrics.upstream_errors + 1) ∧
          (∀ (s : ℕ) (body : String) (ct cc : Option String),
            o.upstream = .response s body ct cc → 400 ≤ s →
            (proxy cap path params o st).state.metrics.upstream_errors =
              st.metrics.upstream_errors + 1)) := by
  rcases hL : verificarCacheLocal o.nowGetLocal o.nowTempoRestante
      (gerarChaveRedis (gerarChaveCache
        (HERE_MAPS_BASE_URL ++ normalizarPathHere path) params)) st.cache with ⟨rL, cache2⟩
  cases rL with
  | some r =>
    simp only [proxy, hL]
    refine ⟨atualizarMetricas_inv _ _ hInv, ?_⟩
    intro habs
    simp [criarRespostaCacheHit] at habs
  | none =>
    rcases hR : verificarCacheRedis o.redisRead st.metrics with ⟨rR, m2⟩
    have hm2 : m2 = st.metrics ∨
        m2 = { st.metrics with redis_errors := st.metrics.redis_errors + 1 } := by
      rcases verificarCacheRedis_snd o.redisRead st.metrics with h | h <;> rw [hR] at h
      · exact Or.inl h
      · exact Or.inr h
    have hm2t : m2.total_requests = st.metrics.total_requests := by
      rcases hm2 with h | h <;> simp [h]
    have hm2u : m2.upstream_errors = st.metrics.upstream_errors := by
      rcases hm2 with h | h <;> simp [h]
    have hm2inv : MetricsInv m2 := by
      rcases hm2 with h | h <;> rw [h]
      · exact hInv
      · exact MetricsInv_redis_bump _ hInv
    cases rR with
    | some r =>
      simp only [proxy, hL, hR]
      refine ⟨atualizarMetricas_inv _ _ hm2inv, ?_⟩
      intro habs
      simp [criarRespostaCacheHit] at habs
    | none =>
      rcases hB : buscarDadosUpstream o.upstream m2 with ⟨rB, m3⟩
      have hm3 : m3 = m2 ∨
          m3 = { m2 with upstream_errors := m2.upstream_errors + 1 } := by
        rcases buscarDadosUpstream_snd o.upstream m2 with h | h <;> rw [hB] at h
        · exact Or.inl h
        · exact Or.inr h
      have hm3t : m3.total_requests = st.metrics.total_requests := by
        rcases hm3 with h | h <;> simp [h, hm2t]
      have hm3inv : MetricsInv m3 := by
        rcases hm3 with h | h <;> rw [h]
        · exact hm2inv
        · exact MetricsInv_upstream_bump _ hm2inv
      cases rB with
      | some r =>
        simp only [proxy, hL, hR, hB]
        constructor
        · rcases salvarNoCacheRedis_snd o.redisWrite (atualizarMetricas "upstream" m3) with h | h
          · show MetricsInv (salvarNoCacheRedis o.redisWrite (atualizarMetricas "upstream" m3))
            rw [h]
            exact atualizarMetricas_inv _ _ hm3inv
          · show MetricsInv (salvarNoCacheRedis o.redisWrite (atualizarMetricas "upstream" m3))
            rw [h]
            exact MetricsInv_redis_bump _ (atualizarMetricas_inv _ _ hm3inv)
        · intro habs
          simp [criarRespostaCacheMiss] at habs
      | none =>
        simp only [proxy, hL, hR, hB]
        refine ⟨hm3inv, fun _ => ⟨hm3t, ?_, ?_⟩⟩
        · intro hTrans
          rw [hTrans] at hB
          unfold buscarDadosUpstream at hB
          dsimp only at hB
          injection hB with h1 h2
          rw [← h2]
          simp [hm2u]
        · intro s body ct cc hResp h400
          rw [hResp] at hB
          unfold buscarDadosUpstream at hB
          dsimp only at hB
          have hs200 : s ≠ 200 := by omega
          rw [if_neg hs200, if_pos h400] at hB
          injection hB with h1 h2
          rw [← h2]
          simp [hm2u]

/-- Witness for C10 at a zeroed metrics state and a failing upstream. -/
theorem proxy_metrics_invariant_witness :
    MetricsInv (⟨0, 0, 0, 0, 0, 0, 0, 0⟩ : Metrics) ∧
      MetricsInv (proxy 100 "t" []
        ⟨0, 0, 0, 0, .ok none none 0, .response 503 "unavailable" none none, .ok ()⟩
        ⟨[], ⟨0, 0, 0, 0, 0, 0, 0, 0⟩⟩).state.metrics :=
  ⟨⟨rfl, rfl⟩,
    (proxy_metrics_invariant 100 "t" []
      ⟨0, 0, 0, 0, .ok none none 0, .response 503 "unavailable" none none, .ok ()⟩
      ⟨[], ⟨0, 0, 0, 0, 0, 0, 0, 0⟩⟩ ⟨rfl, rfl⟩).1⟩

end MapProxy
